import Mathlib

/-!
Verification of the RustyMark watermarking tool (src/src/main.rs).

The development shallowly embeds the program's core logic:

* `calculate_text_position` — the position resolver (main.rs lines 108-139).
  Rust `u32`/`i32` values are modelled as `Nat`/`Int`; the `u32` subtraction
  `img_width - text_width` and the cast `as i32` are modelled with explicit
  two's-complement wrapping (the defined behaviour of Rust release builds,
  and the behaviour the repository documents: negative origins are produced
  and accepted as-is).
* the per-file pipeline `add_copyright_text_image` and the batch driver
  `process_images` (lines 142-224) — file-system and decoding effects are
  abstracted into boolean outcome fields; the control flow (order of the
  fallible steps, the per-file `if let Err` in directory mode versus the
  `?` in single-file mode) is transcribed faithfully.
* the configuration model with its serde field defaults (lines 11-105).
* the byte-level path logic of `is_image_file` and of the output-name
  construction `file_name().unwrap().to_str().unwrap()` (lines 178-180,
  227-234), over Unix `OsStr` semantics (arbitrary bytes, UTF-8 checked
  only at `to_str`).
-/

namespace RustyMark

/-- 2^32, the modulus of Rust `u32` arithmetic. -/
def U32MOD : Nat := 4294967296

/-- 2^31, the magnitude of `i32::MIN` and one more than `i32::MAX`. -/
def I32HALF : Nat := 2147483648

/-- Rust `u32` subtraction `a - b` in release mode: two's-complement
wrapping, i.e. `(a - b) mod 2^32`. -/
def wrappingSubU32 (a b : Nat) : Nat :=
  (a % U32MOD + U32MOD - b % U32MOD) % U32MOD

/-- Rust cast `as i32` applied to a `u32` value `n < 2^32`: values at or
above `2^31` reinterpret as negative. -/
def u32AsI32 (n : Nat) : Int :=
  if n < I32HALF then (n : Int) else (n : Int) - (U32MOD : Int)

/-- Rust `i32` arithmetic result in release mode: two's-complement wrapping
of the mathematical value into `[-2^31, 2^31)`. -/
def wrapI32 (x : Int) : Int :=
  (x + (I32HALF : Int)) % (U32MOD : Int) - (I32HALF : Int)

/-- The `Position` enum of main.rs (lines 77-97): the 9 anchor values. -/
inductive Position where
  | TopLeft
  | TopCenter
  | TopRight
  | MiddleLeft
  | MiddleCenter
  | MiddleRight
  | BottomLeft
  | BottomCenter
  | BottomRight
deriving DecidableEq, Repr

/-- Embedding of `calculate_text_position` (main.rs lines 108-139).
The Rust function receives the image and reads `(img_width, img_height) =
image.dimensions()` (both `u32`); here the two dimensions are passed
directly.  Each arm transcribes the source expression:
`(img_width - text_width) as i32` is `u32AsI32 (wrappingSubU32 _ _)`,
the `i32` division `/ 2` truncates toward zero (`Int.tdiv`), and the `i32`
subtraction `- 10` wraps (`wrapI32`). -/
def calculate_text_position (img_width img_height text_width text_height : Nat)
    (position : Position) : Int × Int :=
  match position with
  | .TopLeft => (10, 10)
  | .TopCenter => (Int.tdiv (u32AsI32 (wrappingSubU32 img_width text_width)) 2, 10)
  | .TopRight => (wrapI32 (u32AsI32 (wrappingSubU32 img_width text_width) - 10), 10)
  | .MiddleLeft => (10, Int.tdiv (u32AsI32 (wrappingSubU32 img_height text_height)) 2)
  | .MiddleCenter =>
      (Int.tdiv (u32AsI32 (wrappingSubU32 img_width text_width)) 2,
       Int.tdiv (u32AsI32 (wrappingSubU32 img_height text_height)) 2)
  | .MiddleRight =>
      (wrapI32 (u32AsI32 (wrappingSubU32 img_width text_width) - 10),
       Int.tdiv (u32AsI32 (wrappingSubU32 img_height text_height)) 2)
  | .BottomLeft => (10, wrapI32 (u32AsI32 (wrappingSubU32 img_height text_height) - 10))
  | .BottomCenter =>
      (Int.tdiv (u32AsI32 (wrappingSubU32 img_width text_width)) 2,
       wrapI32 (u32AsI32 (wrappingSubU32 img_height text_height) - 10))
  | .BottomRight =>
      (wrapI32 (u32AsI32 (wrappingSubU32 img_width text_width) - 10),
       wrapI32 (u32AsI32 (wrappingSubU32 img_height text_height) - 10))

/-- Modelled from the spec: the horizontal axis formula of §4.1, in exact
integer arithmetic (Left → margin; Center → `(W - tw) / 2` with truncating
division; Right → `W - tw - margin`).  Written to compare the spec's
formulas against the code's `calculate_text_position`. -/
def spec_horizontal (img_width text_width : Nat) (position : Position) : Int :=
  match position with
  | .TopLeft | .MiddleLeft | .BottomLeft => 10
  | .TopCenter | .MiddleCenter | .BottomCenter =>
      Int.tdiv ((img_width : Int) - (text_width : Int)) 2
  | .TopRight | .MiddleRight | .BottomRight =>
      (img_width : Int) - (text_width : Int) - 10

/-- Modelled from the spec: the vertical axis formula of §4.1 (Top → margin;
Middle → `(H - th) / 2` with truncating division; Bottom → `H - th - margin`). -/
def spec_vertical (img_height text_height : Nat) (position : Position) : Int :=
  match position with
  | .TopLeft | .TopCenter | .TopRight => 10
  | .MiddleLeft | .MiddleCenter | .MiddleRight =>
      Int.tdiv ((img_height : Int) - (text_height : Int)) 2
  | .BottomLeft | .BottomCenter | .BottomRight =>
      (img_height : Int) - (text_height : Int) - 10

/-- When the mathematical difference `a - b` of two `u32` values fits in
`i32`, the wrapped subtraction followed by the `as i32` cast computes it
exactly. -/
theorem u32AsI32_wrappingSubU32 (a b : Nat) (ha : a < U32MOD) (hb : b < U32MOD)
    (hlo : -(I32HALF : Int) ≤ (a : Int) - (b : Int))
    (hhi : (a : Int) - (b : Int) < (I32HALF : Int)) :
    u32AsI32 (wrappingSubU32 a b) = (a : Int) - (b : Int) := by
  unfold u32AsI32 wrappingSubU32 U32MOD I32HALF at *
  split <;> omega

/-- An `Int` already in the `i32` range is unchanged by `i32` wrapping. -/
theorem wrapI32_of_mem (x : Int) (hlo : -(I32HALF : Int) ≤ x)
    (hhi : x < (I32HALF : Int)) : wrapI32 x = x := by
  unfold wrapI32 U32MOD I32HALF at *
  omega

/-- C1: as stated over all `u32` inputs the claim fails: when `text_width`
exceeds `img_width` by more than `2^31`, the cast `(img_width - text_width)
as i32` wraps to a positive value and the Center arm no longer computes the
spec's `(W - tw) / 2`.  Concretely, for a 100×50 image, a text box of width
3221225572 (= 100 + 3·2^30) and anchor `top_center`, the code returns
x = 536870912 while the axis formula gives `(100 - 3221225572).tdiv 2 =
-1610612736`. -/
theorem claim_C1_counterexample :
    calculate_text_position 100 50 3221225572 10 Position.TopCenter ≠
      (spec_horizontal 100 3221225572 Position.TopCenter,
       spec_vertical 50 10 Position.TopCenter) := by
  decide

/-- C1 (amended): for every image dimensions (W,H), text bounding box
(tw,th) and anchor, provided all four values are `u32` values and the signed
differences stay clear of `i32` overflow — `W - tw ≤ 2^31 - 1` and
`tw - W ≤ 2^31 - 10`, and analogously for the vertical axis —
`calculate_text_position` returns exactly the coordinate given by the two
independent axis formulas: horizontal Left → 10, Center → `(W - tw) / 2`
with truncating division, Right → `W - tw - 10`; vertical Top → 10,
Middle → `(H - th) / 2`, Bottom → `H - th - 10`; in particular for a 100×50
image, a 30×10 text box and anchor `bottom_right` the result is (60, 30). -/
theorem claim_C1_amended (W H tw th : Nat)
    (hW : W < U32MOD) (hH : H < U32MOD) (htw : tw < U32MOD) (hth : th < U32MOD)
    (hx1 : (tw : Int) - (W : Int) ≤ 2147483638)
    (hx2 : (W : Int) - (tw : Int) ≤ 2147483647)
    (hy1 : (th : Int) - (H : Int) ≤ 2147483638)
    (hy2 : (H : Int) - (th : Int) ≤ 2147483647)
    (p : Position) :
    calculate_text_position W H tw th p =
      (spec_horizontal W tw p, spec_vertical H th p) := by
  have hdx : u32AsI32 (wrappingSubU32 W tw) = (W : Int) - (tw : Int) :=
    u32AsI32_wrappingSubU32 W tw hW htw
      (by unfold I32HALF; omega) (by unfold I32HALF; omega)
  have hdy : u32AsI32 (wrappingSubU32 H th) = (H : Int) - (th : Int) :=
    u32AsI32_wrappingSubU32 H th hH hth
      (by unfold I32HALF; omega) (by unfold I32HALF; omega)
  have hwx : wrapI32 ((W : Int) - (tw : Int) - 10) = (W : Int) - (tw : Int) - 10 :=
    wrapI32_of_mem _ (by unfold I32HALF; omega) (by unfold I32HALF; omega)
  have hwy : wrapI32 ((H : Int) - (th : Int) - 10) = (H : Int) - (th : Int) - 10 :=
    wrapI32_of_mem _ (by unfold I32HALF; omega) (by unfold I32HALF; omega)
  cases p <;>
    simp [calculate_text_position, spec_horizontal, spec_vertical, hdx, hdy, hwx, hwy]

/-- Witness for C1 (amended): the spec's own example, 100×50 image, 30×10
text box, anchor `bottom_right`, yields (60, 30). -/
theorem claim_C1_witness :
    calculate_text_position 100 50 30 10 Position.BottomRight =
      (spec_horizontal 100 30 Position.BottomRight,
       spec_vertical 50 10 Position.BottomRight) ∧
    calculate_text_position 100 50 30 10 Position.BottomRight = (60, 30) :=
  ⟨claim_C1_amended 100 50 30 10 (by decide) (by decide) (by decide) (by decide)
      (by decide) (by decide) (by decide) (by decide) Position.BottomRight,
   by decide⟩

/-- C2: as stated the claim fails: the hypotheses `W ≥ tw + 20` and
`H ≥ th + 20` do not prevent the `u32` difference from overflowing the
`i32` cast.  For `W = 4294967295`, `tw = 20` (so `W ≥ tw + 20` holds),
`H = 50`, `th = 10`, anchor `bottom_right`, the cast wraps `W - tw` to
`-21` and the code returns x = -31, violating `x ≥ 10` by far more than
the allowed ±1 rounding. -/
theorem claim_C2_counterexample :
    20 + 20 ≤ 4294967295 ∧ 10 + 20 ≤ 50 ∧
    (calculate_text_position 4294967295 50 20 10 Position.BottomRight).1 = -31 ∧
    ¬ (9 : Int) ≤ (calculate_text_position 4294967295 50 20 10 Position.BottomRight).1 := by
  refine ⟨by decide, by decide, by decide, by decide⟩

/-- C2 (amended): for every one of the 9 anchors, if the image is at least
as large as the text bounding box plus twice the 10-pixel margin on each
axis (`W ≥ tw + 20` and `H ≥ th + 20`) and, in addition, the differences
`W - tw` and `H - th` do not exceed `2^31 - 1` (so the `u32` difference cast
to `i32` does not overflow), then the returned coordinate (x, y) satisfies
`x ≥ 10`, `y ≥ 10`, `x + tw ≤ W - 10` and `y + th ≤ H - 10` exactly (hence
a fortiori within ±1): the full text bounding box stays inside the image
with the margin respected. -/
theorem claim_C2_amended (W H tw th : Nat)
    (hW : W < U32MOD) (hH : H < U32MOD)
    (hWtw : tw + 20 ≤ W) (hHth : th + 20 ≤ H)
    (hx : (W : Int) - (tw : Int) ≤ 2147483647)
    (hy : (H : Int) - (th : Int) ≤ 2147483647)
    (p : Position) :
    10 ≤ (calculate_text_position W H tw th p).1 ∧
    10 ≤ (calculate_text_position W H tw th p).2 ∧
    (calculate_text_position W H tw th p).1 + (tw : Int) ≤ (W : Int) - 10 ∧
    (calculate_text_position W H tw th p).2 + (th : Int) ≤ (H : Int) - 10 := by
  have htw : tw < U32MOD := by omega
  have hth : th < U32MOD := by omega
  have hdx : u32AsI32 (wrappingSubU32 W tw) = (W : Int) - (tw : Int) :=
    u32AsI32_wrappingSubU32 W tw hW htw
      (by unfold I32HALF; omega) (by unfold I32HALF; omega)
  have hdy : u32AsI32 (wrappingSubU32 H th) = (H : Int) - (th : Int) :=
    u32AsI32_wrappingSubU32 H th hH hth
      (by unfold I32HALF; omega) (by unfold I32HALF; omega)
  have hwx : wrapI32 ((W : Int) - (tw : Int) - 10) = (W : Int) - (tw : Int) - 10 :=
    wrapI32_of_mem _ (by unfold I32HALF; omega) (by unfold I32HALF; omega)
  have hwy : wrapI32 ((H : Int) - (th : Int) - 10) = (H : Int) - (th : Int) - 10 :=
    wrapI32_of_mem _ (by unfold I32HALF; omega) (by unfold I32HALF; omega)
  have htx : Int.tdiv ((W : Int) - (tw : Int)) 2 = ((W : Int) - (tw : Int)) / 2 :=
    Int.tdiv_eq_ediv (by omega) (by omega)
  have hty : Int.tdiv ((H : Int) - (th : Int)) 2 = ((H : Int) - (th : Int)) / 2 :=
    Int.tdiv_eq_ediv (by omega) (by omega)
  cases p <;>
    simp only [calculate_text_position, hdx, hdy, hwx, hwy, htx, hty] <;>
    omega

/-- Witness for C2 (amended): a 640×480 image with a 100×20 text box at
anchor `middle_center` keeps the box inside the margins. -/
theorem claim_C2_witness :
    10 ≤ (calculate_text_position 640 480 100 20 Position.MiddleCenter).1 ∧
    10 ≤ (calculate_text_position 640 480 100 20 Position.MiddleCenter).2 ∧
    (calculate_text_position 640 480 100 20 Position.MiddleCenter).1 + (100 : Int) ≤ 640 - 10 ∧
    (calculate_text_position 640 480 100 20 Position.MiddleCenter).2 + (20 : Int) ≤ 480 - 10 :=
  claim_C2_amended 640 480 100 20 (by decide) (by decide) (by decide) (by decide)
    (by decide) (by decide) Position.MiddleCenter

/-- C3: the claim's "the Center formulas yield the corresponding negative
coordinate" fails already for `text_width = img_width + 1`: Rust's
truncating `i32` division rounds `(-1) / 2` up to 0, which is not negative.
For a 100×50 image, text box 101×10, anchor `top_center`, the code returns
x = 0. -/
theorem claim_C3_counterexample :
    100 < 101 ∧
    (calculate_text_position 100 50 101 10 Position.TopCenter).1 = 0 ∧
    ¬ (calculate_text_position 100 50 101 10 Position.TopCenter).1 < 0 := by
  refine ⟨by decide, by decide, by decide⟩

/-- C3 (amended): `calculate_text_position` is a total pure function of its
integer inputs (it is defined for all dimensions, text sizes and anchors,
with no error value and — in release builds, whose wrapping semantics are
modelled here — no panic).  When `text_width > img_width` (staying clear of
`i32` overflow, `tw - W ≤ 2^31 - 10`), the Right arm yields the negative
`W - tw - 10` as-is with no clamping, and the Center arm yields the
truncated `(W - tw) / 2`, which is ≤ 0, and strictly negative as soon as
`tw ≥ W + 2` (for `tw = W + 1` truncation toward zero gives 0); the
vertical axis is analogous. -/
theorem claim_C3_amended (W H tw th : Nat)
    (hW : W < U32MOD) (htw : tw < U32MOD)
    (hover : (W : Int) < (tw : Int))
    (hfit : (tw : Int) - (W : Int) ≤ 2147483638) :
    (∀ H2 th2 p, ∃ v : Int × Int, calculate_text_position W H2 tw th2 p = v) ∧
    (calculate_text_position W H tw th Position.TopRight).1 =
      (W : Int) - (tw : Int) - 10 ∧
    (calculate_text_position W H tw th Position.TopRight).1 < 0 ∧
    (calculate_text_position W H tw th Position.TopCenter).1 =
      Int.tdiv ((W : Int) - (tw : Int)) 2 ∧
    (calculate_text_position W H tw th Position.TopCenter).1 ≤ 0 ∧
    ((W : Int) + 2 ≤ (tw : Int) →
      (calculate_text_position W H tw th Position.TopCenter).1 < 0) := by
  have hdx : u32AsI32 (wrappingSubU32 W tw) = (W : Int) - (tw : Int) :=
    u32AsI32_wrappingSubU32 W tw hW htw
      (by unfold I32HALF; omega) (by unfold I32HALF; omega)
  have hwx : wrapI32 ((W : Int) - (tw : Int) - 10) = (W : Int) - (tw : Int) - 10 :=
    wrapI32_of_mem _ (by unfold I32HALF; omega) (by unfold I32HALF; omega)
  refine ⟨fun H2 th2 p => ⟨calculate_text_position W H2 tw th2 p, rfl⟩, ?_, ?_, ?_, ?_, ?_⟩
  · simp only [calculate_text_position, hdx, hwx]
  · simp only [calculate_text_position, hdx, hwx]; omega
  · simp only [calculate_text_position, hdx]
  · simp only [calculate_text_position, hdx]
    have : Int.tdiv ((W : Int) - (tw : Int)) 2 = -(Int.tdiv ((tw : Int) - (W : Int)) 2) := by
      rw [show (W : Int) - (tw : Int) = -((tw : Int) - (W : Int)) by ring, Int.neg_tdiv]
    rw [this, Int.tdiv_eq_ediv (by omega) (by omega)]
    omega
  · intro hge
    simp only [calculate_text_position, hdx]
    have : Int.tdiv ((W : Int) - (tw : Int)) 2 = -(Int.tdiv ((tw : Int) - (W : Int)) 2) := by
      rw [show (W : Int) - (tw : Int) = -((tw : Int) - (W : Int)) by ring, Int.neg_tdiv]
    rw [this, Int.tdiv_eq_ediv (by omega) (by omega)]
    omega

/-- Witness for C3 (amended): a 100×50 image with a 130×10 text box: the
`top_right` x-coordinate is the negative `100 - 130 - 10 = -40` as-is and
the `top_center` x-coordinate is `-15 < 0`. -/
theorem claim_C3_witness :
    (calculate_text_position 100 50 130 10 Position.TopRight).1 =
      (100 : Int) - (130 : Int) - 10 ∧
    (calculate_text_position 100 50 130 10 Position.TopCenter).1 < 0 :=
  ⟨(claim_C3_amended 100 50 130 10 (by decide) (by decide) (by decide) (by decide)).2.1,
   (claim_C3_amended 100 50 130 10 (by decide) (by decide) (by decide) (by decide)).2.2.2.2.2
     (by decide)⟩

/-! ## Pipeline and batch driver (main.rs lines 142-250)

The file-system effects of `add_copyright_text_image` are abstracted into
boolean outcome fields: whether `fs::read(&config.font_path)` succeeds,
whether `Font::try_from_vec` returns `Some`, and per image file whether
`image::open` and `rgba_image.save` succeed.  The pure middle of the
pipeline (`text_size`, `calculate_text_position`, `draw_text_mut`) cannot
fail and does not influence the claims about error propagation, so it is
not re-modelled here. -/

/-- Outcome of loading the font resource named by the configuration:
`read_ok` models `fs::read(&config.font_path)` succeeding (main.rs line
147), `parse_ok` models `Font::try_from_vec` returning `Some` (line 148). -/
structure FontWorld where
  read_ok : Bool
  parse_ok : Bool
deriving DecidableEq, Repr

/-- One candidate image file: its final path component and the outcomes of
the two fallible per-file steps, `image::open` (main.rs line 152) and
`rgba_image.save` (line 181). -/
structure ImageFile where
  name : String
  decode_ok : Bool
  write_ok : Bool
deriving DecidableEq, Repr

/-- The error a single run of `add_copyright_text_image` surfaces, named
after the step that produced it. -/
inductive PerFileError where
  | fontReadError
  | fontParseError
  | decodeError
  | writeError
deriving DecidableEq, Repr

/-- Embedding of `add_copyright_text_image` (main.rs lines 142-184): the
fallible steps in source order — font read (`?` on line 147), font parse
(`ok_or` on line 149), image decode (`?` on line 152), save (`?` on line
181) — each propagating its error immediately. -/
def add_copyright_text_image (w : FontWorld) (f : ImageFile) :
    Except PerFileError Unit :=
  if !w.read_ok then .error .fontReadError
  else if !w.parse_ok then .error .fontParseError
  else if !f.decode_ok then .error .decodeError
  else if !f.write_ok then .error .writeError
  else .ok ()

/-- Observation of the same run: `image::open` is reached (and succeeds)
only when both font steps succeeded, since the font is loaded first. -/
def image_decoded (w : FontWorld) (f : ImageFile) : Bool :=
  w.read_ok && w.parse_ok && f.decode_ok

/-- Observation of the same run: the `watermarked_*` output file exists
exactly when every step of `add_copyright_text_image` succeeded. -/
def output_written (w : FontWorld) (f : ImageFile) : Bool :=
  w.read_ok && w.parse_ok && f.decode_ok && f.write_ok

/-- One entry of `fs::read_dir`: the flags tested on main.rs line 202
(`path.is_file()` and the result of `is_image_file`) and, when it is an
image file, its per-file outcomes. -/
structure DirEntry where
  is_file : Bool
  is_image : Bool
  file : ImageFile
deriving DecidableEq, Repr

/-- The input path given to `process_images`: a directory with its entries,
a single file (with the result of `is_image_file` on it), or anything else. -/
inductive InputPath where
  | dir (entries : List DirEntry)
  | file (f : ImageFile) (is_image : Bool)
  | other
deriving DecidableEq, Repr

/-- The top-level error `process_images` returns. -/
inductive RunError where
  | configError
  | invalidInput
  | fileError (e : PerFileError)
deriving DecidableEq, Repr

/-- The per-file loop body of directory mode (main.rs lines 197-215): each
entry that is a regular file and an image file is processed; an `Err` from
`add_copyright_text_image` is logged via `eprintln!` with the path and the
cause and the loop continues.  Returns the log, in order. -/
def dir_error_log (w : FontWorld) (entries : List DirEntry) :
    List (String × PerFileError) :=
  entries.filterMap (fun e =>
    if e.is_file && e.is_image then
      match add_copyright_text_image w e.file with
      | .ok _ => none
      | .error err => some (e.file.name, err)
    else none)

/-- The `watermarked_*` outputs directory mode produces, in order. -/
def dir_outputs (w : FontWorld) (entries : List DirEntry) : List String :=
  entries.filterMap (fun e =>
    if e.is_file && e.is_image && output_written w e.file then
      some ("watermarked_" ++ e.file.name)
    else none)

/-- Embedding of `process_images` (main.rs lines 187-224): configuration is
parsed first (`?` on line 192, abstracted to the flag `config_ok`); in
directory mode the per-file loop never aborts and the function returns
`Ok(())`, with per-file errors only logged; in single-file mode the `?` on
line 218 propagates the per-file error; any other input is
`Err("Invalid input path")`.  The second component is the standard-error
log of per-file failures. -/
def process_images (config_ok : Bool) (w : FontWorld) (input : InputPath) :
    Except RunError Unit × List (String × PerFileError) :=
  if !config_ok then (.error .configError, [])
  else
    match input with
    | .dir entries => (.ok (), dir_error_log w entries)
    | .file f is_image =>
        if is_image then
          match add_copyright_text_image w f with
          | .ok _ => (.ok (), [])
          | .error e => (.error (.fileError e), [])
        else (.error .invalidInput, [])
    | .other => (.error .invalidInput, [])

/-- Embedding of the tail of `main` (main.rs lines 246-249): the success
message is printed exactly when `process_images` returned `Ok`, since the
`?` on line 246 otherwise exits `main` with the error. -/
def main_prints_success (config_ok : Bool) (w : FontWorld) (input : InputPath) :
    Bool :=
  match (process_images config_ok w input).1 with
  | .ok _ => true
  | .error _ => false

/-- Helper: whenever loading the font fails (the read or the parse), every
run of `add_copyright_text_image` fails with the corresponding font error,
whatever the file. -/
theorem add_copyright_font_fail (w : FontWorld)
    (hw : w.read_ok = false ∨ w.parse_ok = false) (f : ImageFile) :
    add_copyright_text_image w f =
      .error (if w.read_ok then PerFileError.fontParseError
              else PerFileError.fontReadError) := by
  rcases hw with h | h
  · simp [add_copyright_text_image, h]
  · cases hr : w.read_ok
    · simp [add_copyright_text_image, hr]
    · simp [add_copyright_text_image, hr, h]

/-- Helper: a `filterMap` that keeps exactly the elements satisfying `p`
has the same length as the corresponding `filter`. -/
theorem filterMap_ite_length {α β : Type} (p : α → Bool) (g : α → β)
    (l : List α) :
    (l.filterMap (fun e => if p e then some (g e) else none)).length =
      (l.filter p).length := by
  induction l with
  | nil => rfl
  | cons e rest ih =>
    cases hp : p e <;>
      simp [List.filterMap_cons, List.filter_cons, hp, ih]

/-- Helper: with a failing font, directory mode logs one error per image
file in the directory. -/
theorem dir_error_log_font_fail_length (w : FontWorld)
    (hw : w.read_ok = false ∨ w.parse_ok = false) (entries : List DirEntry) :
    (dir_error_log w entries).length =
      (entries.filter (fun e => e.is_file && e.is_image)).length := by
  have hfun : dir_error_log w entries =
      entries.filterMap (fun e =>
        if e.is_file && e.is_image then
          some (e.file.name,
            if w.read_ok then PerFileError.fontParseError
            else PerFileError.fontReadError)
        else none) := by
    unfold dir_error_log
    congr 1
    funext e
    rw [add_copyright_font_fail w hw e.file]
  rw [hfun]
  exact filterMap_ite_length _ _ entries

/-- C4: the claim fails on the code: the font is loaded inside
`add_copyright_text_image`, i.e. once per file, so in directory mode a
font-load failure does not abort the batch and is surfaced once per file,
not once per batch.  With an unreadable font and a directory of two good
image files, `process_images` returns `Ok(())` and the standard-error log
holds two font-read errors. -/
theorem claim_C4_counterexample :
    (process_images true ⟨false, true⟩ (.dir
      [⟨true, true, ⟨"a.png", true, true⟩⟩,
       ⟨true, true, ⟨"b.png", true, true⟩⟩])).1 = .ok () ∧
    (process_images true ⟨false, true⟩ (.dir
      [⟨true, true, ⟨"a.png", true, true⟩⟩,
       ⟨true, true, ⟨"b.png", true, true⟩⟩])).2 =
      [("a.png", PerFileError.fontReadError),
       ("b.png", PerFileError.fontReadError)] := by
  exact ⟨rfl, rfl⟩

/-- C4 (amended): a font-load failure (missing or unparseable font file) is
fatal per file, not per batch: within `add_copyright_text_image` the font is
loaded before the image, so for every file no image is decoded and no
output is written and the call fails with the font error; in single-file
mode this aborts the whole run; in directory mode, however, the failure is
reported once per image file and the batch continues to the remaining
entries. -/
theorem claim_C4_amended (w : FontWorld)
    (hw : w.read_ok = false ∨ w.parse_ok = false) :
    (∀ f : ImageFile, image_decoded w f = false ∧ output_written w f = false ∧
      add_copyright_text_image w f =
        .error (if w.read_ok then PerFileError.fontParseError
                else PerFileError.fontReadError)) ∧
    (∀ f : ImageFile, (process_images true w (.file f true)).1 =
        .error (.fileError (if w.read_ok then PerFileError.fontParseError
                            else PerFileError.fontReadError)) ∧
      main_prints_success true w (.file f true) = false) ∧
    (∀ entries : List DirEntry,
      (process_images true w (.dir entries)).1 = .ok () ∧
      (process_images true w (.dir entries)).2.length =
        (entries.filter (fun e => e.is_file && e.is_image)).length) := by
  refine ⟨fun f => ⟨?_, ?_, add_copyright_font_fail w hw f⟩,
          fun f => ⟨?_, ?_⟩, fun entries => ⟨?_, ?_⟩⟩
  · rcases hw with h | h <;> simp [image_decoded, h]
  · rcases hw with h | h <;> simp [output_written, h]
  · simp [process_images, add_copyright_font_fail w hw f]
  · simp [main_prints_success, process_images, add_copyright_font_fail w hw f]
  · simp [process_images]
  · simpa [process_images] using dir_error_log_font_fail_length w hw entries

/-- Witness for C4 (amended): with a font whose file cannot be read, a
single-entry directory batch still returns `Ok` while decoding never
happens. -/
theorem claim_C4_witness :
    image_decoded ⟨false, true⟩ ⟨"a.png", true, true⟩ = false ∧
    (process_images true ⟨false, true⟩
      (.dir [⟨true, true, ⟨"a.png", true, true⟩⟩])).1 = .ok () :=
  ⟨((claim_C4_amended ⟨false, true⟩ (Or.inl rfl)).1 ⟨"a.png", true, true⟩).1,
   ((claim_C4_amended ⟨false, true⟩ (Or.inl rfl)).2.2
      [⟨true, true, ⟨"a.png", true, true⟩⟩]).1⟩

/-- C5: in directory mode per-file errors are isolated: with the font
loaded, `process_images` always returns `Ok(())`, its standard-error log
lists exactly the image files whose decode (or, failing that, write) step
fails, each with its path and cause, and every other image file still
produces its `watermarked_*` output. -/
theorem claim_C5_per_file_isolation (w : FontWorld) (entries : List DirEntry)
    (hr : w.read_ok = true) (hp : w.parse_ok = true) :
    (process_images true w (.dir entries)).1 = .ok () ∧
    (process_images true w (.dir entries)).2 =
      entries.filterMap (fun e =>
        if e.is_file && e.is_image then
          if !e.file.decode_ok then some (e.file.name, PerFileError.decodeError)
          else if !e.file.write_ok then some (e.file.name, PerFileError.writeError)
          else none
        else none) ∧
    dir_outputs w entries =
      entries.filterMap (fun e =>
        if e.is_file && e.is_image && e.file.decode_ok && e.file.write_ok then
          some ("watermarked_" ++ e.file.name)
        else none) := by
  have hlog : dir_error_log w entries =
      entries.filterMap (fun e =>
        if e.is_file && e.is_image then
          if !e.file.decode_ok then some (e.file.name, PerFileError.decodeError)
          else if !e.file.write_ok then some (e.file.name, PerFileError.writeError)
          else none
        else none) := by
    unfold dir_error_log
    congr 1
    funext e
    cases hf : e.is_file <;> cases hi : e.is_image <;>
      cases hd : e.file.decode_ok <;> cases hw2 : e.file.write_ok <;>
        simp [add_copyright_text_image, hr, hp, hf, hi, hd, hw2]
  have hout : dir_outputs w entries =
      entries.filterMap (fun e =>
        if e.is_file && e.is_image && e.file.decode_ok && e.file.write_ok then
          some ("watermarked_" ++ e.file.name)
        else none) := by
    unfold dir_outputs
    congr 1
    funext e
    cases hf : e.is_file <;> cases hi : e.is_image <;>
      cases hd : e.file.decode_ok <;> cases hw2 : e.file.write_ok <;>
        simp [output_written, hr, hp, hf, hi, hd, hw2]
  exact ⟨by simp [process_images], by simpa [process_images] using hlog, hout⟩

/-- Witness for C5: the spec's scenario — 3 valid images and 1 corrupt one
in a directory yield exactly 3 `watermarked_*` outputs and exactly 1
reported decode error, naming the corrupt file. -/
theorem claim_C5_witness :
    (process_images true ⟨true, true⟩ (.dir
      [⟨true, true, ⟨"a.png", true, true⟩⟩,
       ⟨true, true, ⟨"b.jpg", true, true⟩⟩,
       ⟨true, true, ⟨"corrupt.png", false, true⟩⟩,
       ⟨true, true, ⟨"c.gif", true, true⟩⟩])).1 = .ok () ∧
    (process_images true ⟨true, true⟩ (.dir
      [⟨true, true, ⟨"a.png", true, true⟩⟩,
       ⟨true, true, ⟨"b.jpg", true, true⟩⟩,
       ⟨true, true, ⟨"corrupt.png", false, true⟩⟩,
       ⟨true, true, ⟨"c.gif", true, true⟩⟩])).2 =
      [("corrupt.png", PerFileError.decodeError)] ∧
    dir_outputs ⟨true, true⟩
      [⟨true, true, ⟨"a.png", true, true⟩⟩,
       ⟨true, true, ⟨"b.jpg", true, true⟩⟩,
       ⟨true, true, ⟨"corrupt.png", false, true⟩⟩,
       ⟨true, true, ⟨"c.gif", true, true⟩⟩] =
      ["watermarked_a.png", "watermarked_b.jpg", "watermarked_c.gif"] := by
  have h := claim_C5_per_file_isolation ⟨true, true⟩
    [⟨true, true, ⟨"a.png", true, true⟩⟩,
     ⟨true, true, ⟨"b.jpg", true, true⟩⟩,
     ⟨true, true, ⟨"corrupt.png", false, true⟩⟩,
     ⟨true, true, ⟨"c.gif", true, true⟩⟩] rfl rfl
  exact ⟨h.1, h.2.1.trans (by decide), h.2.2.trans (by decide)⟩

/-- C9: in single-file mode any failure of `add_copyright_text_image` is
propagated out of `process_images` by the `?` operator, so the run ends in
an error (non-zero exit) and the success message is not printed — whereas
the very same failing file inside a directory leaves the batch result `Ok`,
the failure only appearing in the standard-error log with its path and
cause. -/
theorem claim_C9_single_file_propagates (w : FontWorld) (f : ImageFile)
    (e : PerFileError) (hfail : add_copyright_text_image w f = .error e) :
    (process_images true w (.file f true)).1 = .error (.fileError e) ∧
    main_prints_success true w (.file f true) = false ∧
    (process_images true w (.dir [⟨true, true, f⟩])).1 = .ok () ∧
    (process_images true w (.dir [⟨true, true, f⟩])).2 = [(f.name, e)] := by
  refine ⟨?_, ?_, ?_, ?_⟩ <;>
    simp [process_images, main_prints_success, dir_error_log, hfail]

/-- Witness for C9: a single image file whose decode fails makes the whole
run fail and suppresses the success message. -/
theorem claim_C9_witness :
    (process_images true ⟨true, true⟩ (.file ⟨"a.png", false, true⟩ true)).1 =
      .error (.fileError .decodeError) ∧
    main_prints_success true ⟨true, true⟩ (.file ⟨"a.png", false, true⟩ true) = false :=
  ⟨(claim_C9_single_file_propagates ⟨true, true⟩ ⟨"a.png", false, true⟩
      .decodeError rfl).1,
   (claim_C9_single_file_propagates ⟨true, true⟩ ⟨"a.png", false, true⟩
      .decodeError rfl).2.1⟩

/-! ## Configuration model (main.rs lines 10-105)

The TOML layer (file reading and syntax) is abstracted away: `parse_config`
below receives an already syntactically well-formed document, modelled as a
record of optional fields, and applies exactly the `#[serde(default = ...)]`
functions of the source for the absent ones.  The `f32` field `font_size`
is modelled as a rational number; every value the claims touch (20.0, -5.0)
is exactly representable in `f32`, so no rounding is lost. -/

/-- The `ColorConfig` struct (main.rs lines 56-66): four `u8` components,
modelled as `Nat` values (documents are assumed byte-ranged; no claim
depends on the range). -/
structure ColorConfig where
  r : Nat
  g : Nat
  b : Nat
  a : Nat
deriving DecidableEq, Repr

/-- Embedding of `default_text` (main.rs lines 30-32).  The string literal
in the source is the mojibake "Â© Copyright" — bytes C3 82 C2 A9 —
not "© Copyright" (bytes C2 A9). -/
def default_text : String := "Â© Copyright"

/-- Embedding of `default_font_path` (main.rs lines 34-36). -/
def default_font_path : String := "/path/to/default/font.ttf"

/-- Embedding of `default_font_size` (main.rs lines 38-40): the `f32` value
20.0. -/
def default_font_size : Rat := 20

/-- Embedding of `default_position` (main.rs lines 42-44). -/
def default_position : Position := Position.BottomRight

/-- Embedding of `default_color` (main.rs lines 46-53). -/
def default_color : ColorConfig := ⟨255, 255, 255, 128⟩

/-- Embedding of `default_color_component` (main.rs lines 68-70). -/
def default_color_component : Nat := 255

/-- Embedding of `default_alpha` (main.rs lines 72-74). -/
def default_alpha : Nat := 128

/-- The `CopyrightConfig` struct (main.rs lines 11-27).  `font_path`
(a `PathBuf`) is modelled as a string. -/
structure CopyrightConfig where
  text : String
  font_path : String
  font_size : Rat
  position : Position
  color : ColorConfig
deriving DecidableEq, Repr

/-- A syntactically well-formed `color` sub-table: each component present
or absent. -/
structure ColorDoc where
  r : Option Nat
  g : Option Nat
  b : Option Nat
  a : Option Nat
deriving DecidableEq, Repr

/-- A syntactically well-formed configuration document: each field present
or absent. -/
structure ConfigDoc where
  text : Option String
  font_path : Option String
  font_size : Option Rat
  position : Option Position
  color : Option ColorDoc
deriving DecidableEq, Repr

/-- Serde's derived deserializer for `ColorConfig`: per-component defaults
(main.rs lines 58-65). -/
def parse_color (c : ColorDoc) : ColorConfig :=
  ⟨c.r.getD default_color_component, c.g.getD default_color_component,
   c.b.getD default_color_component, c.a.getD default_alpha⟩

/-- Embedding of `parse_config` (main.rs lines 100-105) composed with
serde's derived `Deserialize` for `CopyrightConfig`: each absent field
takes its `#[serde(default = ...)]` value; the function performs no
validation beyond deserialization. -/
def parse_config (doc : ConfigDoc) : CopyrightConfig :=
  { text := doc.text.getD default_text
    font_path := doc.font_path.getD default_font_path
    font_size := doc.font_size.getD default_font_size
    position := doc.position.getD default_position
    color := (doc.color.map parse_color).getD default_color }

/-- C6: the code's default watermark text is the mojibake "Â© Copyright"
(the source literal's bytes are C3 82 C2 A9, "©" double-encoded), not the
documented "© Copyright": a configuration document omitting `text` parses
to a config whose text differs from the claim's string. -/
theorem claim_C6_default_text_mojibake :
    (parse_config ⟨none, some "/tmp/font.ttf", some 20,
        some Position.BottomRight, none⟩).text = "Â© Copyright" ∧
    (parse_config ⟨none, some "/tmp/font.ttf", some 20,
        some Position.BottomRight, none⟩).text ≠ "© Copyright" :=
  ⟨rfl, by decide⟩

/-- C8: the claim fails on the code: `parse_config` performs no validation,
so a document carrying an explicitly empty `text` and the non-positive
`font_size` -5.0 is accepted, producing a configuration violating both
data-model constraints. -/
theorem claim_C8_counterexample :
    (parse_config ⟨some "", none, some (-5), none, none⟩).text = "" ∧
    (parse_config ⟨some "", none, some (-5), none, none⟩).font_size = -5 ∧
    ¬ 0 < (parse_config ⟨some "", none, some (-5), none, none⟩).font_size :=
  ⟨rfl, rfl, by decide⟩

/-- C8 (amended): `parse_config` does not validate, so the data-model
constraints are guaranteed only for defaulted fields: every configuration
parsed from a document that omits `text` and `font_size` has the non-empty
default text and the positive default font size 20.0; a document supplying
an empty text or a non-positive font size is not rejected. -/
theorem claim_C8_amended (doc : ConfigDoc) (htext : doc.text = none)
    (hsize : doc.font_size = none) :
    (parse_config doc).text ≠ "" ∧ 0 < (parse_config doc).font_size := by
  constructor
  · simp [parse_config, htext]
    decide
  · simp [parse_config, hsize]
    decide

/-- Witness for C8 (amended): the all-defaults document. -/
theorem claim_C8_witness :
    (⟨none, none, none, none, none⟩ : ConfigDoc).text = none ∧
    ((parse_config ⟨none, none, none, none, none⟩).text ≠ "" ∧
      0 < (parse_config ⟨none, none, none, none, none⟩).font_size) :=
  ⟨rfl, claim_C8_amended ⟨none, none, none, none, none⟩ rfl rfl⟩

/-! ## Output path construction (main.rs lines 178-181, 227-234)

Two granularities.  For C7, paths whose components are UTF-8 strings: a
path is its parent components plus a final file name, and
`Path::with_file_name` replaces the final component.  For C10, the final
component is a raw byte list (Unix `OsStr` semantics), since the claim is
precisely about components that are not valid UTF-8. -/

/-- A file path: parent components and final component (file name). -/
structure RPath where
  dir : List String
  file_name : String
deriving DecidableEq, Repr

/-- Embedding of `Path::with_file_name`: replaces the final component,
keeping the parent. -/
def with_file_name (p : RPath) (name : String) : RPath :=
  ⟨p.dir, name⟩

/-- Embedding of the output-path construction of main.rs lines 178-180
for UTF-8 file names: `with_file_name(format!("watermarked_{}",
file_name))`. -/
def output_path (p : RPath) : RPath :=
  with_file_name p ("watermarked_" ++ p.file_name)

/-- C7: for every input path `<dir>/<name>.<ext>` the output path is
`<dir>/watermarked_<name>.<ext>` — same directory, file name prefixed with
"watermarked_", same extension — and the output path of any path differs
from the source path, so the source file is never overwritten. -/
theorem claim_C7_output_path (dir : List String) (name ext : String) :
    output_path ⟨dir, name ++ "." ++ ext⟩ =
      ⟨dir, "watermarked_" ++ name ++ "." ++ ext⟩ ∧
    ∀ p : RPath, output_path p ≠ p := by
  constructor
  · simp [output_path, with_file_name, String.append_assoc]
  · intro p h
    have hname : "watermarked_" ++ p.file_name = p.file_name :=
      congrArg RPath.file_name h
    have hlen := congrArg String.length hname
    rw [String.length_append] at hlen
    have h12 : "watermarked_".length = 12 := by decide
    rw [h12] at hlen
    omega

/-- Continuation byte of UTF-8: 10xxxxxx, i.e. 0x80-0xBF. -/
def isUtf8Cont (b : Nat) : Bool := 128 ≤ b && b ≤ 191

/-- Validity of a byte sequence as UTF-8, as checked by Rust's
`str::from_utf8` (well-formed byte sequences of the Unicode standard,
table 3-7: no overlong forms, no surrogates, nothing above U+10FFFF). -/
def validUtf8 : List Nat → Bool
  | [] => true
  | b :: rest =>
    if b ≤ 127 then validUtf8 rest
    else if 194 ≤ b && b ≤ 223 then
      match rest with
      | c1 :: r => isUtf8Cont c1 && validUtf8 r
      | [] => false
    else if b = 224 then
      match rest with
      | c1 :: c2 :: r => (160 ≤ c1 && c1 ≤ 191) && isUtf8Cont c2 && validUtf8 r
      | _ => false
    else if (225 ≤ b && b ≤ 236) || b = 238 || b = 239 then
      match rest with
      | c1 :: c2 :: r => isUtf8Cont c1 && isUtf8Cont c2 && validUtf8 r
      | _ => false
    else if b = 237 then
      match rest with
      | c1 :: c2 :: r => (128 ≤ c1 && c1 ≤ 159) && isUtf8Cont c2 && validUtf8 r
      | _ => false
    else if b = 240 then
      match rest with
      | c1 :: c2 :: c3 :: r =>
          (144 ≤ c1 && c1 ≤ 191) && isUtf8Cont c2 && isUtf8Cont c3 && validUtf8 r
      | _ => false
    else if 241 ≤ b && b ≤ 243 then
      match rest with
      | c1 :: c2 :: c3 :: r =>
          isUtf8Cont c1 && isUtf8Cont c2 && isUtf8Cont c3 && validUtf8 r
      | _ => false
    else if b = 244 then
      match rest with
      | c1 :: c2 :: c3 :: r =>
          (128 ≤ c1 && c1 ≤ 143) && isUtf8Cont c2 && isUtf8Cont c3 && validUtf8 r
      | _ => false
    else false

/-- The byte suffix after the last '.' (byte 46) of the list, if any. -/
def lastDotSuffix : List Nat → Option (List Nat)
  | [] => none
  | b :: rest =>
    match lastDotSuffix rest with
    | some e => some e
    | none => if b = 46 then some rest else none

/-- Embedding of `Path::extension` on the final path component, over Unix
`OsStr` bytes: the portion after the final '.', except that a '.' leading
the component does not count (hidden files have no extension) and the
component ".." has none. -/
def extension_bytes (name : List Nat) : Option (List Nat) :=
  if name = [46, 46] then none
  else
    match name with
    | [] => none
    | _ :: rest => lastDotSuffix rest

/-- ASCII lowercasing of a byte.  The source lowercases the decoded
extension with `str::to_lowercase`; for comparisons against the six ASCII
extension words this byte-wise map is extensionally faithful (no non-ASCII
character lowercases into any of those words). -/
def ascii_to_lower (b : Nat) : Nat :=
  if 65 ≤ b && b ≤ 90 then b + 32 else b

/-- Embedding of `is_image_file` (main.rs lines 227-234) over the bytes of
the path's final component: the extension is decoded with
`to_str().unwrap_or("")` (an invalid-UTF-8 extension becomes the empty
string), lowercased, and compared against `jpg`, `jpeg`, `png`, `gif`,
`bmp`, `webp` (written as their byte lists). -/
def is_image_file (name : List Nat) : Bool :=
  match extension_bytes name with
  | none => false
  | some ext =>
    let extStr := if validUtf8 ext then ext else []
    let lower := extStr.map ascii_to_lower
    lower = [106, 112, 103] || lower = [106, 112, 101, 103] ||
    lower = [112, 110, 103] || lower = [103, 105, 102] ||
    lower = [98, 109, 112] || lower = [119, 101, 98, 112]

/-- Embedding of the output-name construction of main.rs lines 178-180 at
byte level: `image_path.file_name().unwrap().to_str().unwrap()` panics —
modelled as `none` — when the final component is not valid UTF-8;
otherwise the name is prefixed with "watermarked_" (written as its byte
list). -/
def output_file_name_bytes (name : List Nat) : Option (List Nat) :=
  if validUtf8 name then
    some ([119, 97, 116, 101, 114, 109, 97, 114, 107, 101, 100, 95] ++ name)
  else none

/-- C10: `add_copyright_text_image` panics on a final path component that
is not valid UTF-8, and this is reachable through `is_image_file`: the
component `0xFF ".png"` has the valid-UTF-8 extension `png`, so
`is_image_file` accepts it, yet the whole component is not valid UTF-8
(0xFF occurs in no well-formed sequence), so the output-name construction
`file_name().unwrap().to_str().unwrap()` reaches the `to_str` panic —
and it does so exactly on the non-UTF-8 components. -/
theorem claim_C10_panic_reachable :
    is_image_file [255, 46, 112, 110, 103] = true ∧
    validUtf8 [255, 46, 112, 110, 103] = false ∧
    output_file_name_bytes [255, 46, 112, 110, 103] = none ∧
    ∀ name : List Nat,
      (output_file_name_bytes name = none ↔ validUtf8 name = false) := by
  refine ⟨by decide, by decide, by decide, ?_⟩
  intro name
  unfold output_file_name_bytes
  cases h : validUtf8 name <;> simp [h]

end RustyMark
